import Mathlib

/-!
Verification of the pgpkbench benchmark harness (src/main.py).

The development shallowly embeds the Python source:

* `SlidingSample` with its `append` method (lines 39-57), where the two
  `random.random()` draws become explicit rational parameters in `[0, 1)`,
  Python `int(...)` truncation becomes `pyInt`, and the possibly-raising
  list slot assignment `self.data[index] = item` becomes the partial
  `listSetPy` (so `append` returns an `Option`: `none` models an
  uncaught `IndexError`).
* the environment-driven configuration `INSERT_COUNT` / `SELECT_COUNT`
  (lines 21-22), with `os.getenv` modelled as an `Option String` and a
  failing `int(...)` parse as `none`.
* `generate_random_string` (lines 70-71), with the ten `random.choices`
  draws as indices into the population string.
* the `cleanup` fixture's two `DROP TABLE IF EXISTS` statements
  (lines 74-85) against a two-table database state, where dropping a
  table that a still-existing table references is an error.
* the twelve benchmark scenarios, embedded as traces of connection,
  cursor, SQL and commit events; identifier generators (`ulid.ulid`,
  `uuid7`, `uuid4`) and `generate_random_string` appear as abstract
  call-indexed functions, and the serial strategy's database-assigned
  `RETURNING id` values follow PostgreSQL serial semantics (the i-th
  insert into a fresh table yields i+1).
-/

/-- Python `int(q)` on a rational: truncation toward zero. -/
def pyInt (q : ℚ) : Int :=
  if 0 ≤ q then ⌊q⌋ else ⌈q⌉

/-- Python effective list index: a negative index counts from the end. -/
def pyIdx (len : Nat) (i : Int) : Int :=
  if i < 0 then i + len else i

/-- Python list slot assignment `l[i] = a`: an out-of-range index raises
`IndexError` (modelled as `none`). -/
def listSetPy {α : Type} (l : List α) (i : Int) (a : α) : Option (List α) :=
  if 0 ≤ pyIdx l.length i ∧ pyIdx l.length i < (l.length : Int) then
    some (l.set (pyIdx l.length i).toNat a)
  else
    none

/-- The `SlidingSample` class: configured size and current data list. -/
structure SlidingSample (α : Type) where
  size : Nat
  data : List α
deriving DecidableEq, Repr

/-- `SlidingSample.append` (src/main.py lines 44-51).  `r1` is the draw of
`random.random()` in the `elif` guard, `r2` the draw used for the index.
`none` models an uncaught `IndexError` from `self.data[index] = item`. -/
def SlidingSample.append {α : Type} (s : SlidingSample α) (item : α)
    (r1 r2 : ℚ) : Option (SlidingSample α) :=
  if s.data.length < s.size then
    some ⟨s.size, s.data ++ [item]⟩
  else if 1/2 < r1 then
    match listSetPy s.data (pyInt (r2 * (s.size : ℚ))) item with
    | some d => some ⟨s.size, d⟩
    | none => none
  else
    some s

/-- A sequence of `append` calls, one `(item, r1, r2)` triple per call;
`none` as soon as one call raises. -/
def SlidingSample.offerAll {α : Type} (s : SlidingSample α) :
    List (α × ℚ × ℚ) → Option (SlidingSample α)
  | [] => some s
  | d :: rest =>
    match s.append d.1 d.2.1 d.2.2 with
    | some s' => s'.offerAll rest
    | none => none

theorem listSetPy_inbounds {α : Type} (l : List α) (i : Int) (a : α)
    (h0 : 0 ≤ i) (h1 : i < (l.length : Int)) :
    listSetPy l i a = some (l.set i.toNat a) := by
  have hidx : pyIdx l.length i = i := by
    unfold pyIdx
    rw [if_neg (not_lt.mpr h0)]
  unfold listSetPy
  rw [hidx, if_pos ⟨h0, h1⟩]

theorem listSetPy_length {α : Type} {l : List α} {i : Int} {a : α} {l' : List α}
    (h : listSetPy l i a = some l') : l'.length = l.length := by
  unfold listSetPy at h
  split at h
  · simp only [Option.some.injEq] at h
    subst h
    exact List.length_set ..
  · exact absurd h (by simp)

theorem append_some_size {α : Type} {s : SlidingSample α} {item : α} {r1 r2 : ℚ}
    {s' : SlidingSample α} (h : s.append item r1 r2 = some s') : s'.size = s.size := by
  unfold SlidingSample.append at h
  split at h
  · simp only [Option.some.injEq] at h; subst h; rfl
  · split at h
    · split at h
      · simp only [Option.some.injEq] at h; subst h; rfl
      · exact absurd h (by simp)
    · simp only [Option.some.injEq] at h; subst h; rfl

theorem append_some_length {α : Type} {s : SlidingSample α} {item : α} {r1 r2 : ℚ}
    {s' : SlidingSample α} (h : s.append item r1 r2 = some s') :
    s'.data.length = if s.data.length < s.size then s.data.length + 1 else s.data.length := by
  unfold SlidingSample.append at h
  split at h
  · next hlt =>
    simp only [Option.some.injEq] at h
    subst h
    simp [hlt]
  · next hge =>
    rw [if_neg hge]
    split at h
    · split at h
      · next d hd =>
        simp only [Option.some.injEq] at h
        subst h
        exact listSetPy_length hd
      · exact absurd h (by simp)
    · simp only [Option.some.injEq] at h; subst h; rfl

theorem offerAll_length {α : Type} (offers : List (α × ℚ × ℚ)) :
    ∀ (s s' : SlidingSample α), s.data.length ≤ s.size →
      s.offerAll offers = some s' →
      s'.size = s.size ∧ s'.data.length = min s.size (s.data.length + offers.length) := by
  induction offers with
  | nil =>
    intro s s' hle h
    simp only [SlidingSample.offerAll, Option.some.injEq] at h
    subst h
    refine ⟨rfl, ?_⟩
    simp only [List.length_nil, Nat.add_zero]
    omega
  | cons d rest ih =>
    intro s s' hle h
    simp only [SlidingSample.offerAll] at h
    split at h
    · next s1 h1 =>
      have hsize := append_some_size h1
      have hlen := append_some_length h1
      have hle1 : s1.data.length ≤ s1.size := by
        rw [hsize, hlen]
        split <;> omega
      obtain ⟨hsz, hln⟩ := ih s1 s' hle1 h
      refine ⟨hsz.trans hsize, ?_⟩
      rw [hln, hsize, hlen]
      simp only [List.length_cons]
      split <;> omega
    · exact absurd h (by simp)

theorem sampler_index_lt {size : Nat} {r2 : ℚ} (hpos : 0 < size)
    (h0 : 0 ≤ r2) (h1 : r2 < 1) :
    pyInt (r2 * (size : ℚ)) = ⌊r2 * (size : ℚ)⌋ ∧
    0 ≤ ⌊r2 * (size : ℚ)⌋ ∧ ⌊r2 * (size : ℚ)⌋ < (size : Int) := by
  have hq0 : (0 : ℚ) ≤ r2 * (size : ℚ) := mul_nonneg h0 (by positivity)
  refine ⟨?_, Int.floor_nonneg.mpr hq0, ?_⟩
  · unfold pyInt
    rw [if_pos hq0]
  · rw [Int.floor_lt]
    push_cast
    exact mul_lt_of_lt_one_left (by exact_mod_cast hpos) h1

/-- Claim C1: when the stored count is below the configured capacity,
`append` appends the item unconditionally; once the count equals the
capacity (with at least one slot), given draws `r1` and `r2` of
`random.random()`, it overwrites the slot at index `int(r2 * capacity)`
exactly when `r1 > 0.5`, and otherwise leaves the stored items
unchanged. -/
theorem claim_C1_sliding_append (s : SlidingSample Nat) (item : Nat) (r1 r2 : ℚ)
    (h0 : 0 ≤ r2) (h1 : r2 < 1) :
    (s.data.length < s.size → s.append item r1 r2 = some ⟨s.size, s.data ++ [item]⟩) ∧
    (s.data.length = s.size → 0 < s.size →
      (1/2 < r1 →
        s.append item r1 r2 = some ⟨s.size, s.data.set (pyInt (r2 * (s.size : ℚ))).toNat item⟩) ∧
      (¬ 1/2 < r1 → s.append item r1 r2 = some s)) := by
  constructor
  · intro hlt
    unfold SlidingSample.append
    rw [if_pos hlt]
  · intro heq hpos
    have hnlt : ¬ s.data.length < s.size := by omega
    obtain ⟨hidx, hfl0, hflt⟩ := sampler_index_lt hpos h0 h1
    constructor
    · intro hr1
      unfold SlidingSample.append
      rw [if_neg hnlt, if_pos hr1]
      rw [listSetPy_inbounds s.data (pyInt (r2 * (s.size : ℚ))) item
        (by rw [hidx]; exact hfl0) (by rw [hidx, heq]; exact hflt)]
    · intro hr1
      unfold SlidingSample.append
      rw [if_neg hnlt, if_neg hr1]

/-- Witness for C1 at a concrete full sampler: capacity 2 holding `[1, 2]`,
draws `r1 = 3/4 > 0.5` and `r2 = 1/2`, so slot `int(1/2 * 2) = 1` is
overwritten with the offered item 9. -/
theorem claim_C1_witness :
    SlidingSample.append (⟨2, [1, 2]⟩ : SlidingSample Nat) 9 (3/4) (1/2) =
      some ⟨2, [1, 9]⟩ := by
  have h := (claim_C1_sliding_append ⟨2, [1, 2]⟩ 9 (3/4) (1/2)
      (by norm_num) (by norm_num)).2 rfl (by norm_num)
  rw [h.1 (by norm_num)]
  norm_num [pyInt]

/-- Claim C2: starting from an empty sampler of a given capacity, after any
sequence of `k` completed offers the stored length is `min capacity k`; in
particular once `k` reaches the capacity the length is exactly the
capacity, so the size never exceeds it. -/
theorem claim_C2_sample_length (size : Nat) (offers : List (Nat × ℚ × ℚ))
    (s' : SlidingSample Nat)
    (h : SlidingSample.offerAll ⟨size, []⟩ offers = some s') :
    s'.data.length = min size offers.length ∧
    (size ≤ offers.length → s'.data.length = size) := by
  obtain ⟨_, hlen⟩ := offerAll_length offers ⟨size, []⟩ s' (by simp) h
  simp only [List.length_nil, Nat.zero_add] at hlen
  exact ⟨hlen, fun hle => by rw [hlen]; omega⟩

/-- Witness for C2: capacity 2, three offers (the third draws `r1 = 0` so
the full sampler keeps `[5, 6]`); the final length is `min 2 3 = 2`. -/
theorem claim_C2_witness :
    (⟨2, [5, 6]⟩ : SlidingSample Nat).data.length = min 2 3 ∧
    (2 ≤ 3 → (⟨2, [5, 6]⟩ : SlidingSample Nat).data.length = 2) :=
  claim_C2_sample_length 2 [(5, 0, 0), (6, 0, 0), (7, 0, 0)] ⟨2, [5, 6]⟩
    (by norm_num [SlidingSample.offerAll, SlidingSample.append])

/-- Claim C8: `append` never raises for a sampler whose configured size is
at least 1, for every item and every pair of draws in `[0, 1)`; and the
precondition is necessary: with size 0 and an accepting first draw the
replacement branch assigns `self.data[0]` on the empty list and raises
(`none` in the embedding). -/
theorem claim_C8_append_total :
    (∀ (s : SlidingSample Nat) (item : Nat) (r1 r2 : ℚ),
      1 ≤ s.size → 0 ≤ r2 → r2 < 1 → (s.append item r1 r2).isSome = true) ∧
    SlidingSample.append (⟨0, []⟩ : SlidingSample Nat) 0 (3/4) (1/3) = none := by
  constructor
  · intro s item r1 r2 hsz h0 h1
    unfold SlidingSample.append
    split
    · rfl
    · next hge =>
      have hlen : s.size ≤ s.data.length := not_lt.mp hge
      split
      · obtain ⟨hidx, hfl0, hflt⟩ := @sampler_index_lt s.size r2 (by omega) h0 h1
        rw [listSetPy_inbounds s.data (pyInt (r2 * (s.size : ℚ))) item
          (by rw [hidx]; exact hfl0)
          (by rw [hidx]; exact lt_of_lt_of_le hflt (by exact_mod_cast hlen))]
        rfl
      · rfl
  · norm_num [SlidingSample.append, listSetPy, pyIdx, pyInt]

/-- Witness for C8: a concrete sampler of size 1 with the draws `(0, 0)`. -/
theorem claim_C8_witness :
    (SlidingSample.append (⟨1, []⟩ : SlidingSample Nat) 4 0 0).isSome = true :=
  claim_C8_append_total.1 ⟨1, []⟩ 4 0 0 (by decide) (by norm_num) (by norm_num)

/-- Value of a decimal digit run, `none` on a non-digit or an empty run. -/
def pyDigitsVal : List Char → Option Nat
  | [] => none
  | l => l.foldl (fun acc c =>
      match acc with
      | none => none
      | some n => if c.isDigit then some (n * 10 + (c.toNat - 48)) else none)
      (some 0)

/-- Python `int(s)` on a string: an optional minus sign followed by decimal
digits; anything else raises `ValueError` (modelled as `none`).  The
whitespace, `+`-sign and underscore forms Python also accepts are not used
by this harness and are conservatively rejected. -/
def pyParseInt (s : String) : Option Int :=
  match s.toList with
  | [] => none
  | c :: rest =>
    if c = Char.ofNat 45 then (pyDigitsVal rest).map fun n => -(n : Int)
    else (pyDigitsVal (c :: rest)).map fun n => (n : Int)

/-- Reading one integer setting as in `int(os.getenv(NAME, default))`
(src/main.py lines 21-22): the default when the variable is unset,
otherwise the `int(...)` parse of the environment string (`none` models
the `ValueError` a non-integer string raises). -/
def readEnvInt (env : Option String) (default : Int) : Option Int :=
  match env with
  | none => some default
  | some s => pyParseInt s

/-- `INSERT_COUNT` as a function of the `INSERT_COUNT` environment
variable (src/main.py line 21). -/
def INSERT_COUNT (env : Option String) : Option Int :=
  readEnvInt env 100

/-- `SELECT_COUNT` as a function of the `SELECT_COUNT` environment
variable (src/main.py line 22). -/
def SELECT_COUNT (env : Option String) : Option Int :=
  readEnvInt env 10

/-- Claim C6: the two integer settings come from the process environment:
unset, the insert count defaults to 100 and the select/sample count to 10;
set, the parsed integer value of the environment string is used. -/
theorem claim_C6_env_config :
    INSERT_COUNT none = some 100 ∧ SELECT_COUNT none = some 10 ∧
    (∀ (s : String) (n : Int), pyParseInt s = some n →
      INSERT_COUNT (some s) = some n ∧ SELECT_COUNT (some s) = some n) := by
  refine ⟨rfl, rfl, fun s n h => ⟨?_, ?_⟩⟩ <;>
    simp [INSERT_COUNT, SELECT_COUNT, readEnvInt, h]

/-- Witness for C6: the environment value `"42"` parses to 42 and is used
for both settings. -/
theorem claim_C6_witness :
    INSERT_COUNT (some "42") = some 42 ∧ SELECT_COUNT (some "42") = some 42 :=
  (claim_C6_env_config.2.2 "42" 42 (by decide))

/-- Which of the two benchmark tables currently exist. -/
structure DBState where
  parentExists : Bool
  childExists : Bool
deriving DecidableEq, Repr

/-- `DROP TABLE IF EXISTS child;`: always succeeds (nothing references
`child`), leaving `child` absent. -/
def dropChildIfExists (s : DBState) : Except String DBState :=
  Except.ok { s with childExists := false }

/-- `DROP TABLE IF EXISTS parent;`: fails when a still-existing `child`
table holds its `REFERENCES parent(id)` foreign key (PostgreSQL refuses to
drop a table with dependent objects); otherwise succeeds, leaving `parent`
absent (a no-op when it was already absent). -/
def dropParentIfExists (s : DBState) : Except String DBState :=
  if s.parentExists && s.childExists then
    Except.error "cannot drop table parent because other objects depend on it"
  else
    Except.ok { s with parentExists := false }

/-- The `cleanup` fixture's teardown (src/main.py lines 79-85): drop
`child`, then drop `parent`. -/
def cleanup (s : DBState) : Except String DBState := do
  let s1 ← dropChildIfExists s
  dropParentIfExists s1

/-- Claim C7: the teardown drops `child` before `parent`, each with
`DROP TABLE IF EXISTS`, and succeeds from every database state — in
particular when either or both tables are already absent — always leaving
both tables absent. -/
theorem claim_C7_cleanup_total (s : DBState) :
    cleanup s = Except.ok ⟨false, false⟩ := by
  cases s with
  | mk p c => cases p <;> cases c <;> rfl

/-- The population `string.ascii_lowercase` of src/main.py line 71. -/
def ascii_lowercase : String := "abcdefghijklmnopqrstuvwxyz"

/-- The population `string.digits` of src/main.py line 71. -/
def digits : String := "0123456789"

/-- The population handed to `random.choices`. -/
def payloadPopulation : List Char := (ascii_lowercase ++ digits).toList

/-- `generate_random_string` (src/main.py lines 70-71): the ten uniform
draws of `random.choices(population, k=10)` appear as ten indices into the
population. -/
def generate_random_string (draws : Fin 10 → Fin payloadPopulation.length) : String :=
  String.mk (List.ofFn fun i : Fin 10 => payloadPopulation.get (draws i))

/-- Claim C10: `generate_random_string` always returns exactly 10
characters, each a lowercase ASCII letter or decimal digit; no character
is a single quote, so the interpolated `'...'` payload is a well-delimited
SQL string literal. -/
theorem claim_C10_random_string (draws : Fin 10 → Fin payloadPopulation.length) :
    (generate_random_string draws).length = 10 ∧
    ((generate_random_string draws).toList.all fun c =>
      payloadPopulation.contains c && c ≠ Char.ofNat 39) = true := by
  constructor
  · simp [generate_random_string, String.length]
  · rw [List.all_eq_true]
    intro c hc
    simp only [generate_random_string, String.toList] at hc
    rw [List.mem_ofFn] at hc
    obtain ⟨i, hi⟩ := hc
    have hmem : c ∈ payloadPopulation := by
      rw [← hi]
      exact List.get_mem payloadPopulation (draws i).1 (draws i).2
    have hne : c ≠ Char.ofNat 39 := by
      intro h
      rw [h] at hmem
      revert hmem
      decide
    simp only [Bool.and_eq_true, decide_eq_true_eq]
    exact ⟨List.elem_eq_true_of_mem hmem, hne⟩

/-- The four primary-key strategies of the benchmark. -/
inductive KeyStrategy where
  | serial
  | byteaUlid
  | uuidv7
  | uuidv4
deriving DecidableEq, Repr

/-- SQL statements the harness issues.  `insertParent`/`insertChild` carry
`none` when the database assigns the id (the serial strategy) and
`some id` when the statement interpolates an explicitly generated id. -/
inductive Stmt where
  | createTableParent (k : KeyStrategy)
  | createTableChild (k : KeyStrategy)
  | insertParent (id : Option String) (payload : String)
  | insertChild (id : Option String) (parentId : String) (payload : String)
  | selectParentById (id : String)
  | selectParentLimit10
  | dropTableChild
  | dropTableParent
deriving DecidableEq, Repr

/-- The observable events of a scenario: connection and cursor lifecycle,
statement execution, and transaction commit. -/
inductive Event where
  | connect
  | openCursor
  | exec (s : Stmt)
  | commit
  | closeCursor
  | closeConn
deriving DecidableEq, Repr

def isConnect : Event → Bool
  | .connect => true
  | _ => false

def isOpenCursor : Event → Bool
  | .openCursor => true
  | _ => false

def isCloseCursor : Event → Bool
  | .closeCursor => true
  | _ => false

def isCloseConn : Event → Bool
  | .closeConn => true
  | _ => false

def isCommit : Event → Bool
  | .commit => true
  | _ => false

def isInsertParent : Event → Bool
  | .exec (.insertParent _ _) => true
  | _ => false

def isInsertChild : Event → Bool
  | .exec (.insertChild _ _ _) => true
  | _ => false

def isSelectById : Event → Bool
  | .exec (.selectParentById _) => true
  | _ => false

/-- `for i in range(N): ...`, collecting the events of each iteration. -/
def relLoop {α : Type} (step : Nat → List α) : Nat → List α
  | 0 => []
  | n + 1 => relLoop step n ++ step n

/-- Any of the four `create_tables_with_*` helpers (src/main.py lines
88-117): create `parent`, create `child`, commit. -/
def createTablesEvents (k : KeyStrategy) : List Event :=
  [.exec (.createTableParent k), .exec (.createTableChild k), .commit]

/-- Timed block of `test_serial_pk_insert` (lines 132-139): `payload i` is
the i-th `generate_random_string()` result. -/
def test_serial_pk_insert_block (N : Nat) (payload : Nat → String) : List Event :=
  ((List.range N).map fun i => Event.exec (.insertParent none (payload i))) ++ [.commit]

/-- Timed block of `test_bytea_ulid_pk_insert` (lines 212-218): `ulidGen i`
is the i-th `ulid.ulid()` result. -/
def test_bytea_ulid_pk_insert_block (N : Nat) (ulidGen payload : Nat → String) : List Event :=
  ((List.range N).map fun i => Event.exec (.insertParent (some (ulidGen i)) (payload i)))
    ++ [.commit]

/-- Timed block of `test_uuid_uuidv7_pk_insert` (lines 293-299). -/
def test_uuid_uuidv7_pk_insert_block (N : Nat) (uuid7Gen payload : Nat → String) : List Event :=
  ((List.range N).map fun i => Event.exec (.insertParent (some (uuid7Gen i)) (payload i)))
    ++ [.commit]

/-- Timed block of `test_uuid_uuidv4_pk_insert` (lines 377-383). -/
def test_uuid_uuidv4_pk_insert_block (N : Nat) (uuid4Gen payload : Nat → String) : List Event :=
  ((List.range N).map fun i => Event.exec (.insertParent (some (uuid4Gen i)) (payload i)))
    ++ [.commit]

/-- Untimed pre-fill of `test_serial_pk_select` (lines 156-162). -/
def test_serial_pk_select_prefill (N : Nat) (payload : Nat → String) : List Event :=
  ((List.range N).map fun i => Event.exec (.insertParent none (payload i))) ++ [.commit]

/-- Untimed pre-fill of the three generated-id select scenarios. -/
def gen_pk_select_prefill (N : Nat) (gen payload : Nat → String) : List Event :=
  ((List.range N).map fun i => Event.exec (.insertParent (some (gen i)) (payload i)))
    ++ [.commit]

/-- Timed block of every select scenario (e.g. lines 164-171): one point
lookup per identifier currently held by the `SlidingSample`, then a
commit. -/
def selectBlock (ids : List String) : List Event :=
  (ids.map fun i => Event.exec (.selectParentById i)) ++ [.commit]

/-- Timed block of `test_serial_pk_parent_child_insert` (lines 186-196):
each iteration inserts a parent (serial id assigned by the database: the
i-th insert into the fresh table returns i+1 via `RETURNING id`) and then
a child whose `parent_id` is the fetched value. -/
def test_serial_pk_parent_child_insert_block (N : Nat) (payload : Nat → String) : List Event :=
  relLoop (fun i =>
    [Event.exec (.insertParent none (payload (2 * i))),
     Event.exec (.insertChild none (toString (i + 1)) (payload (2 * i + 1)))]) N ++ [.commit]

/-- Timed block of `test_bytea_ulid_pk_parent_child_insert` (lines
266-277): `ulidGen` is call-indexed, the parent id being the 2i-th call
and the child id the (2i+1)-th. -/
def test_bytea_ulid_pk_parent_child_insert_block (N : Nat) (ulidGen payload : Nat → String) :
    List Event :=
  relLoop (fun i =>
    [Event.exec (.insertParent (some (ulidGen (2 * i))) (payload (2 * i))),
     Event.exec (.insertChild (some (ulidGen (2 * i + 1))) (ulidGen (2 * i))
       (payload (2 * i + 1)))]) N ++ [.commit]

/-- Timed block of `test_uuidv7_pk_parent_child_insert` (lines 350-361). -/
def test_uuidv7_pk_parent_child_insert_block (N : Nat) (uuid7Gen payload : Nat → String) :
    List Event :=
  relLoop (fun i =>
    [Event.exec (.insertParent (some (uuid7Gen (2 * i))) (payload (2 * i))),
     Event.exec (.insertChild (some (uuid7Gen (2 * i + 1))) (uuid7Gen (2 * i))
       (payload (2 * i + 1)))]) N ++ [.commit]

/-- Timed block of `test_uuidv4_pk_parent_child_insert` (lines 434-445). -/
def test_uuidv4_pk_parent_child_insert_block (N : Nat) (uuid4Gen payload : Nat → String) :
    List Event :=
  relLoop (fun i =>
    [Event.exec (.insertParent (some (uuid4Gen (2 * i))) (payload (2 * i))),
     Event.exec (.insertChild (some (uuid4Gen (2 * i + 1))) (uuid4Gen (2 * i))
       (payload (2 * i + 1)))]) N ++ [.commit]

/-- Full trace of `test_serial_pk_insert` (lines 123-142). -/
def test_serial_pk_insert_trace (N : Nat) (payload : Nat → String) : List Event :=
  [Event.connect, Event.openCursor] ++ createTablesEvents .serial
    ++ test_serial_pk_insert_block N payload ++ [Event.closeCursor, Event.closeConn]

/-- Full trace of `test_bytea_ulid_pk_insert` (lines 205-221). -/
def test_bytea_ulid_pk_insert_trace (N : Nat) (ulidGen payload : Nat → String) : List Event :=
  [Event.connect, Event.openCursor] ++ createTablesEvents .byteaUlid
    ++ test_bytea_ulid_pk_insert_block N ulidGen payload ++ [Event.closeCursor, Event.closeConn]

/-- Full trace of `test_uuid_uuidv7_pk_insert` (lines 286-305), including
the `SELECT * FROM parent LIMIT 10` issued after the timed block. -/
def test_uuid_uuidv7_pk_insert_trace (N : Nat) (uuid7Gen payload : Nat → String) : List Event :=
  [Event.connect, Event.openCursor] ++ createTablesEvents .uuidv7
    ++ test_uuid_uuidv7_pk_insert_block N uuid7Gen payload
    ++ [Event.exec .selectParentLimit10, Event.closeCursor, Event.closeConn]

/-- Full trace of `test_uuid_uuidv4_pk_insert` (lines 370-389), including
the `SELECT * FROM parent LIMIT 10` issued after the timed block. -/
def test_uuid_uuidv4_pk_insert_trace (N : Nat) (uuid4Gen payload : Nat → String) : List Event :=
  [Event.connect, Event.openCursor] ++ createTablesEvents .uuidv4
    ++ test_uuid_uuidv4_pk_insert_block N uuid4Gen payload
    ++ [Event.exec .selectParentLimit10, Event.closeCursor, Event.closeConn]

/-- Full trace of `test_serial_pk_select` (lines 148-176); `ids` is the
rendered content of the `SlidingSample` when the timed block runs. -/
def test_serial_pk_select_trace (N : Nat) (payload : Nat → String) (ids : List String) :
    List Event :=
  [Event.connect, Event.openCursor] ++ createTablesEvents .serial
    ++ test_serial_pk_select_prefill N payload ++ selectBlock ids
    ++ [Event.closeCursor, Event.closeConn]

/-- Full trace of `test_bytea_ulid_pk_select` (lines 227-256). -/
def test_bytea_ulid_pk_select_trace (N : Nat) (ulidGen payload : Nat → String)
    (ids : List String) : List Event :=
  [Event.connect, Event.openCursor] ++ createTablesEvents .byteaUlid
    ++ gen_pk_select_prefill N ulidGen payload ++ selectBlock ids
    ++ [Event.closeCursor, Event.closeConn]

/-- Full trace of `test_uuid_uuidv7_pk_select` (lines 311-340). -/
def test_uuid_uuidv7_pk_select_trace (N : Nat) (uuid7Gen payload : Nat → String)
    (ids : List String) : List Event :=
  [Event.connect, Event.openCursor] ++ createTablesEvents .uuidv7
    ++ gen_pk_select_prefill N uuid7Gen payload ++ selectBlock ids
    ++ [Event.closeCursor, Event.closeConn]

/-- Full trace of `test_uuid_uuidv4_pk_select` (lines 395-424). -/
def test_uuid_uuidv4_pk_select_trace (N : Nat) (uuid4Gen payload : Nat → String)
    (ids : List String) : List Event :=
  [Event.connect, Event.openCursor] ++ createTablesEvents .uuidv4
    ++ gen_pk_select_prefill N uuid4Gen payload ++ selectBlock ids
    ++ [Event.closeCursor, Event.closeConn]

/-- Full trace of `test_serial_pk_parent_child_insert` (lines 180-199). -/
def test_serial_pk_parent_child_insert_trace (N : Nat) (payload : Nat → String) : List Event :=
  [Event.connect, Event.openCursor] ++ createTablesEvents .serial
    ++ test_serial_pk_parent_child_insert_block N payload ++ [Event.closeCursor, Event.closeConn]

/-- Full trace of `test_bytea_ulid_pk_parent_child_insert` (lines 260-280). -/
def test_bytea_ulid_pk_parent_child_insert_trace (N : Nat) (ulidGen payload : Nat → String) :
    List Event :=
  [Event.connect, Event.openCursor] ++ createTablesEvents .byteaUlid
    ++ test_bytea_ulid_pk_parent_child_insert_block N ulidGen payload
    ++ [Event.closeCursor, Event.closeConn]

/-- Full trace of `test_uuidv7_pk_parent_child_insert` (lines 344-364). -/
def test_uuidv7_pk_parent_child_insert_trace (N : Nat) (uuid7Gen payload : Nat → String) :
    List Event :=
  [Event.connect, Event.openCursor] ++ createTablesEvents .uuidv7
    ++ test_uuidv7_pk_parent_child_insert_block N uuid7Gen payload
    ++ [Event.closeCursor, Event.closeConn]

/-- Full trace of `test_uuidv4_pk_parent_child_insert` (lines 428-448). -/
def test_uuidv4_pk_parent_child_insert_trace (N : Nat) (uuid4Gen payload : Nat → String) :
    List Event :=
  [Event.connect, Event.openCursor] ++ createTablesEvents .uuidv4
    ++ test_uuidv4_pk_parent_child_insert_block N uuid4Gen payload
    ++ [Event.closeCursor, Event.closeConn]

/-- Trace of the `cleanup` fixture's teardown body (lines 79-85). -/
def cleanupTrace : List Event :=
  [Event.connect, Event.openCursor, Event.exec .dropTableChild, Event.exec .dropTableParent,
   Event.commit, Event.closeCursor, Event.closeConn]

/-- The id cell of each parent `INSERT` of a trace, in order: `none`
when the database assigns the id, otherwise the interpolated id. -/
def parentIdCells (t : List Event) : List (Option String) :=
  t.filterMap fun e =>
    match e with
    | .exec (.insertParent i _) => some i
    | _ => none

/-- The `parent_id` value of each child `INSERT` of a trace, in order. -/
def childRefs (t : List Event) : List String :=
  t.filterMap fun e =>
    match e with
    | .exec (.insertChild _ p _) => some p
    | _ => none

/-- PostgreSQL serial assignment: the id of the n-th (0-based) parent
insert of a trace on a fresh table is `n+1` when the cell is `none`,
otherwise the explicitly interpolated id. -/
def assignedIdsAux : Nat → List (Option String) → List String
  | _, [] => []
  | n, c :: rest => c.getD (toString (n + 1)) :: assignedIdsAux (n + 1) rest

/-- The actual id of each parent row inserted by a trace, in order. -/
def assignedIds (t : List Event) : List String :=
  assignedIdsAux 0 (parentIdCells t)

theorem relLoop_congr {α : Type} {f g : Nat → List α} (h : ∀ i, f i = g i) (N : Nat) :
    relLoop f N = relLoop g N := by
  induction N with
  | zero => rfl
  | succ n ih => simp only [relLoop, ih, h]

theorem relLoop_singleton {α : Type} (g : Nat → α) (N : Nat) :
    relLoop (fun i => [g i]) N = (List.range N).map g := by
  induction N with
  | zero => rfl
  | succ n ih => simp only [relLoop, ih, List.range_succ, List.map_append, List.map]

theorem filterMap_relLoop {α β : Type} (f : α → Option β) (step : Nat → List α) (N : Nat) :
    (relLoop step N).filterMap f = relLoop (fun i => (step i).filterMap f) N := by
  induction N with
  | zero => rfl
  | succ n ih => simp only [relLoop, List.filterMap_append, ih]

theorem countP_relLoop_zero {α : Type} (p : α → Bool) (step : Nat → List α)
    (h : ∀ i, (step i).countP p = 0) (N : Nat) : (relLoop step N).countP p = 0 := by
  induction N with
  | zero => rfl
  | succ n ih => simp only [relLoop, List.countP_append, ih, h, Nat.add_zero]

theorem getLast_append_single {α : Type} (l : List α) (a : α) :
    (l ++ [a]).getLast? = some a :=
  List.getLast?_concat _

theorem getLast_append_pair {α : Type} (l : List α) (a b : α) :
    (l ++ [a, b]).getLast? = some b := by
  have h : l ++ [a, b] = (l ++ [a]) ++ [b] := by simp
  rw [h]
  exact getLast_append_single ..

theorem countP_map_all_true {α β : Type} (p : β → Bool) (f : α → β) (l : List α)
    (h : ∀ i, p (f i) = true) : (l.map f).countP p = l.length := by
  rw [List.countP_map]
  exact List.countP_eq_length.mpr fun a _ => by simp [Function.comp, h a]

theorem countP_map_all_false {α β : Type} (p : β → Bool) (f : α → β) (l : List α)
    (h : ∀ i, p (f i) = false) : (l.map f).countP p = 0 := by
  rw [List.countP_map]
  exact List.countP_eq_zero.mpr fun a _ => by simp [Function.comp, h a]

theorem assignedIdsAux_append (l : List (Option String)) (c : Option String) :
    ∀ k, assignedIdsAux k (l ++ [c]) =
      assignedIdsAux k l ++ [c.getD (toString (k + l.length + 1))] := by
  induction l with
  | nil => intro k; simp [assignedIdsAux]
  | cons x rest ih =>
    intro k
    have hn : k + 1 + rest.length + 1 = k + (rest.length + 1) + 1 := by omega
    simp only [List.cons_append, assignedIdsAux, List.append_eq, ih (k + 1),
      List.length_cons, hn]

theorem insertBlock_counts (f : Nat → Event) (N : Nat)
    (h1 : ∀ i, isInsertParent (f i) = true)
    (h2 : ∀ i, isInsertChild (f i) = false)
    (h3 : ∀ i, isCommit (f i) = false) :
    (((List.range N).map f) ++ [Event.commit]).countP isInsertParent = N ∧
    (((List.range N).map f) ++ [Event.commit]).countP isInsertChild = 0 ∧
    (((List.range N).map f) ++ [Event.commit]).countP isCommit = 1 ∧
    (((List.range N).map f) ++ [Event.commit]).getLast? = some Event.commit := by
  refine ⟨?_, ?_, ?_, getLast_append_single ..⟩
  · rw [List.countP_append, countP_map_all_true _ _ _ h1, List.length_range]
    rfl
  · rw [List.countP_append, countP_map_all_false _ _ _ h2]
    rfl
  · rw [List.countP_append, countP_map_all_false _ _ _ h3]
    rfl

/-- Claim C5: in each of the four insert scenarios the timed block issues
exactly N parent `INSERT`s, no child `INSERT`, and exactly one commit, at
the very end of the block. -/
theorem claim_C5_insert_blocks (N : Nat) (payload ulidGen uuid7Gen uuid4Gen : Nat → String) :
    ((test_serial_pk_insert_block N payload).countP isInsertParent = N ∧
      (test_serial_pk_insert_block N payload).countP isInsertChild = 0 ∧
      (test_serial_pk_insert_block N payload).countP isCommit = 1 ∧
      (test_serial_pk_insert_block N payload).getLast? = some Event.commit) ∧
    ((test_bytea_ulid_pk_insert_block N ulidGen payload).countP isInsertParent = N ∧
      (test_bytea_ulid_pk_insert_block N ulidGen payload).countP isInsertChild = 0 ∧
      (test_bytea_ulid_pk_insert_block N ulidGen payload).countP isCommit = 1 ∧
      (test_bytea_ulid_pk_insert_block N ulidGen payload).getLast? = some Event.commit) ∧
    ((test_uuid_uuidv7_pk_insert_block N uuid7Gen payload).countP isInsertParent = N ∧
      (test_uuid_uuidv7_pk_insert_block N uuid7Gen payload).countP isInsertChild = 0 ∧
      (test_uuid_uuidv7_pk_insert_block N uuid7Gen payload).countP isCommit = 1 ∧
      (test_uuid_uuidv7_pk_insert_block N uuid7Gen payload).getLast? = some Event.commit) ∧
    ((test_uuid_uuidv4_pk_insert_block N uuid4Gen payload).countP isInsertParent = N ∧
      (test_uuid_uuidv4_pk_insert_block N uuid4Gen payload).countP isInsertChild = 0 ∧
      (test_uuid_uuidv4_pk_insert_block N uuid4Gen payload).countP isCommit = 1 ∧
      (test_uuid_uuidv4_pk_insert_block N uuid4Gen payload).getLast? = some Event.commit) :=
  ⟨insertBlock_counts _ N (fun _ => rfl) (fun _ => rfl) (fun _ => rfl),
   insertBlock_counts _ N (fun _ => rfl) (fun _ => rfl) (fun _ => rfl),
   insertBlock_counts _ N (fun _ => rfl) (fun _ => rfl) (fun _ => rfl),
   insertBlock_counts _ N (fun _ => rfl) (fun _ => rfl) (fun _ => rfl)⟩

theorem parentIdCells_append (t1 t2 : List Event) :
    parentIdCells (t1 ++ t2) = parentIdCells t1 ++ parentIdCells t2 :=
  List.filterMap_append ..

theorem childRefs_append (t1 t2 : List Event) :
    childRefs (t1 ++ t2) = childRefs t1 ++ childRefs t2 :=
  List.filterMap_append ..

theorem assignedIdsAux_map_range (cell : Nat → Option String) (N : Nat) :
    assignedIdsAux 0 ((List.range N).map cell) =
      (List.range N).map fun i => (cell i).getD (toString (i + 1)) := by
  induction N with
  | zero => rfl
  | succ n ih =>
    rw [List.range_succ, List.map_append, List.map_append, List.map_cons, List.map_nil,
      List.map_cons, List.map_nil, assignedIdsAux_append, ih]
    simp

theorem relBlock_spec (step : Nat → List Event) (cell : Nat → Option String)
    (ref : Nat → String) (N : Nat)
    (hc : ∀ i, parentIdCells (step i) = [cell i])
    (hr : ∀ i, childRefs (step i) = [ref i])
    (hm : ∀ i, ref i = (cell i).getD (toString (i + 1)))
    (hnc : ∀ i, (step i).countP isCommit = 0) :
    childRefs (relLoop step N ++ [Event.commit]) =
      assignedIds (relLoop step N ++ [Event.commit]) ∧
    (parentIdCells (relLoop step N ++ [Event.commit])).length = N ∧
    (childRefs (relLoop step N ++ [Event.commit])).length = N ∧
    (relLoop step N ++ [Event.commit]).countP isCommit = 1 ∧
    (relLoop step N ++ [Event.commit]).getLast? = some Event.commit := by
  have hp0 : parentIdCells (relLoop step N) = (List.range N).map cell := by
    exact (filterMap_relLoop _ step N).trans
      ((relLoop_congr hc N).trans (relLoop_singleton cell N))
  have hr0 : childRefs (relLoop step N) = (List.range N).map ref := by
    exact (filterMap_relLoop _ step N).trans
      ((relLoop_congr hr N).trans (relLoop_singleton ref N))
  have hp : parentIdCells (relLoop step N ++ [Event.commit]) = (List.range N).map cell := by
    rw [parentIdCells_append]
    rw [show parentIdCells [Event.commit] = [] from rfl, List.append_nil]
    exact hp0
  have hrr : childRefs (relLoop step N ++ [Event.commit]) = (List.range N).map ref := by
    rw [childRefs_append]
    rw [show childRefs [Event.commit] = [] from rfl, List.append_nil]
    exact hr0
  refine ⟨?_, ?_, ?_, ?_, getLast_append_single ..⟩
  · rw [hrr]
    unfold assignedIds
    rw [hp, assignedIdsAux_map_range]
    exact List.map_congr_left fun i _ => hm i
  · rw [hp, List.length_map, List.length_range]
  · rw [hrr, List.length_map, List.length_range]
  · rw [List.countP_append, countP_relLoop_zero _ _ hnc N]
    rfl

/-- Claim C4: in each of the four relational-insert scenarios the timed
block performs N iterations inserting one parent row then one child row,
the i-th child's `parent_id` being exactly the id of the i-th parent
(database-assigned for the serial strategy, the freshly generated id
otherwise) — so the list of child references coincides with the list of
parent ids and every child references an inserted parent — and a single
commit ends the block. -/
theorem claim_C4_relational_blocks (N : Nat) (payload ulidGen uuid7Gen uuid4Gen : Nat → String) :
    (childRefs (test_serial_pk_parent_child_insert_block N payload) =
        assignedIds (test_serial_pk_parent_child_insert_block N payload) ∧
      (parentIdCells (test_serial_pk_parent_child_insert_block N payload)).length = N ∧
      (childRefs (test_serial_pk_parent_child_insert_block N payload)).length = N ∧
      (test_serial_pk_parent_child_insert_block N payload).countP isCommit = 1 ∧
      (test_serial_pk_parent_child_insert_block N payload).getLast? = some Event.commit) ∧
    (childRefs (test_bytea_ulid_pk_parent_child_insert_block N ulidGen payload) =
        assignedIds (test_bytea_ulid_pk_parent_child_insert_block N ulidGen payload) ∧
      (parentIdCells (test_bytea_ulid_pk_parent_child_insert_block N ulidGen payload)).length = N ∧
      (childRefs (test_bytea_ulid_pk_parent_child_insert_block N ulidGen payload)).length = N ∧
      (test_bytea_ulid_pk_parent_child_insert_block N ulidGen payload).countP isCommit = 1 ∧
      (test_bytea_ulid_pk_parent_child_insert_block N ulidGen payload).getLast? =
        some Event.commit) ∧
    (childRefs (test_uuidv7_pk_parent_child_insert_block N uuid7Gen payload) =
        assignedIds (test_uuidv7_pk_parent_child_insert_block N uuid7Gen payload) ∧
      (parentIdCells (test_uuidv7_pk_parent_child_insert_block N uuid7Gen payload)).length = N ∧
      (childRefs (test_uuidv7_pk_parent_child_insert_block N uuid7Gen payload)).length = N ∧
      (test_uuidv7_pk_parent_child_insert_block N uuid7Gen payload).countP isCommit = 1 ∧
      (test_uuidv7_pk_parent_child_insert_block N uuid7Gen payload).getLast? =
        some Event.commit) ∧
    (childRefs (test_uuidv4_pk_parent_child_insert_block N uuid4Gen payload) =
        assignedIds (test_uuidv4_pk_parent_child_insert_block N uuid4Gen payload) ∧
      (parentIdCells (test_uuidv4_pk_parent_child_insert_block N uuid4Gen payload)).length = N ∧
      (childRefs (test_uuidv4_pk_parent_child_insert_block N uuid4Gen payload)).length = N ∧
      (test_uuidv4_pk_parent_child_insert_block N uuid4Gen payload).countP isCommit = 1 ∧
      (test_uuidv4_pk_parent_child_insert_block N uuid4Gen payload).getLast? =
        some Event.commit) :=
  ⟨relBlock_spec _ (fun _ => none) (fun i => toString (i + 1)) N
      (fun _ => rfl) (fun _ => rfl) (fun _ => rfl) (fun _ => rfl),
   relBlock_spec _ (fun i => some (ulidGen (2 * i))) (fun i => ulidGen (2 * i)) N
      (fun _ => rfl) (fun _ => rfl) (fun _ => rfl) (fun _ => rfl),
   relBlock_spec _ (fun i => some (uuid7Gen (2 * i))) (fun i => uuid7Gen (2 * i)) N
      (fun _ => rfl) (fun _ => rfl) (fun _ => rfl) (fun _ => rfl),
   relBlock_spec _ (fun i => some (uuid4Gen (2 * i))) (fun i => uuid4Gen (2 * i)) N
      (fun _ => rfl) (fun _ => rfl) (fun _ => rfl) (fun _ => rfl)⟩

/-- A scenario's connection/cursor discipline: exactly one connect, one
cursor open, one cursor close and one connection close, the trace starting
with the connect and ending with the connection close. -/
def scenarioResourceSpec (t : List Event) : Prop :=
  t.countP isConnect = 1 ∧ t.countP isOpenCursor = 1 ∧
  t.countP isCloseCursor = 1 ∧ t.countP isCloseConn = 1 ∧
  t.head? = some Event.connect ∧ t.getLast? = some Event.closeConn

/-- Traces consisting only of statement executions and commits. -/
def onlySql (t : List Event) : Prop :=
  ∀ e ∈ t, (∃ s, e = Event.exec s) ∨ e = Event.commit

theorem onlySql_append {t1 t2 : List Event} (h1 : onlySql t1) (h2 : onlySql t2) :
    onlySql (t1 ++ t2) := by
  intro e he
  rcases List.mem_append.mp he with h | h
  · exact h1 e h
  · exact h2 e h

theorem onlySql_map {β : Type} (f : β → Event) (l : List β)
    (h : ∀ b, (∃ s, f b = Event.exec s) ∨ f b = Event.commit) : onlySql (l.map f) := by
  intro e he
  obtain ⟨b, _, rfl⟩ := List.mem_map.mp he
  exact h b

theorem onlySql_relLoop {step : Nat → List Event} (h : ∀ i, onlySql (step i)) (N : Nat) :
    onlySql (relLoop step N) := by
  induction N with
  | zero => intro e he; exact absurd he (List.not_mem_nil e)
  | succ n ih => exact onlySql_append ih (h n)

theorem onlySql_commit_single : onlySql [Event.commit] := by
  intro e he
  simp only [List.mem_singleton] at he
  subst he
  exact Or.inr rfl

theorem onlySql_createTables (k : KeyStrategy) : onlySql (createTablesEvents k) := by
  intro e he
  simp only [createTablesEvents, List.mem_cons, List.not_mem_nil, or_false] at he
  rcases he with rfl | rfl | rfl
  · exact Or.inl ⟨_, rfl⟩
  · exact Or.inl ⟨_, rfl⟩
  · exact Or.inr rfl

theorem onlySql_pair_step (a b : Stmt) : onlySql [Event.exec a, Event.exec b] := by
  intro e he
  simp only [List.mem_cons, List.not_mem_nil, or_false] at he
  rcases he with rfl | rfl
  · exact Or.inl ⟨_, rfl⟩
  · exact Or.inl ⟨_, rfl⟩

theorem countP_zero_of_onlySql (p : Event → Bool)
    (hp1 : ∀ s, p (Event.exec s) = false) (hp2 : p Event.commit = false)
    {t : List Event} (h : onlySql t) : t.countP p = 0 :=
  List.countP_eq_zero.mpr fun e he => by
    rcases h e he with ⟨s, rfl⟩ | rfl
    · simp [hp1]
    · simp [hp2]

theorem scenarioResourceSpec_mk (m : List Event) (hm : onlySql m) :
    scenarioResourceSpec
      ([Event.connect, Event.openCursor] ++ m ++ [Event.closeCursor, Event.closeConn]) := by
  have hc := countP_zero_of_onlySql isConnect (fun _ => rfl) rfl hm
  have ho := countP_zero_of_onlySql isOpenCursor (fun _ => rfl) rfl hm
  have hcc := countP_zero_of_onlySql isCloseCursor (fun _ => rfl) rfl hm
  have hcn := countP_zero_of_onlySql isCloseConn (fun _ => rfl) rfl hm
  refine ⟨?_, ?_, ?_, ?_, rfl, getLast_append_pair ..⟩
  · rw [List.countP_append, List.countP_append, hc]
    rfl
  · rw [List.countP_append, List.countP_append, ho]
    rfl
  · rw [List.countP_append, List.countP_append, hcc]
    rfl
  · rw [List.countP_append, List.countP_append, hcn]
    rfl

theorem onlySql_single_exec (s : Stmt) : onlySql [Event.exec s] := by
  intro e he
  simp only [List.mem_singleton] at he
  subst he
  exact Or.inl ⟨_, rfl⟩

/-- Claim C9: every one of the twelve scenario traces, and the teardown
trace of the `cleanup` fixture, opens exactly one connection and one
cursor and closes both inside the trace; each trace begins with its own
fresh connect and ends with its own connection close, so no connection or
cursor outlives a scenario or is shared with another. -/
theorem claim_C9_resource_discipline (N : Nat)
    (payload ulidGen uuid7Gen uuid4Gen : Nat → String)
    (serialIds ulidIds uuid7Ids uuid4Ids : List String) :
    scenarioResourceSpec (test_serial_pk_insert_trace N payload) ∧
    scenarioResourceSpec (test_bytea_ulid_pk_insert_trace N ulidGen payload) ∧
    scenarioResourceSpec (test_uuid_uuidv7_pk_insert_trace N uuid7Gen payload) ∧
    scenarioResourceSpec (test_uuid_uuidv4_pk_insert_trace N uuid4Gen payload) ∧
    scenarioResourceSpec (test_serial_pk_select_trace N payload serialIds) ∧
    scenarioResourceSpec (test_bytea_ulid_pk_select_trace N ulidGen payload ulidIds) ∧
    scenarioResourceSpec (test_uuid_uuidv7_pk_select_trace N uuid7Gen payload uuid7Ids) ∧
    scenarioResourceSpec (test_uuid_uuidv4_pk_select_trace N uuid4Gen payload uuid4Ids) ∧
    scenarioResourceSpec (test_serial_pk_parent_child_insert_trace N payload) ∧
    scenarioResourceSpec (test_bytea_ulid_pk_parent_child_insert_trace N ulidGen payload) ∧
    scenarioResourceSpec (test_uuidv7_pk_parent_child_insert_trace N uuid7Gen payload) ∧
    scenarioResourceSpec (test_uuidv4_pk_parent_child_insert_trace N uuid4Gen payload) ∧
    scenarioResourceSpec cleanupTrace := by
  have hser : onlySql ((List.range N).map fun i =>
      Event.exec (.insertParent none (payload i))) :=
    onlySql_map _ _ fun _ => Or.inl ⟨_, rfl⟩
  have hulid : onlySql ((List.range N).map fun i =>
      Event.exec (.insertParent (some (ulidGen i)) (payload i))) :=
    onlySql_map _ _ fun _ => Or.inl ⟨_, rfl⟩
  have h7 : onlySql ((List.range N).map fun i =>
      Event.exec (.insertParent (some (uuid7Gen i)) (payload i))) :=
    onlySql_map _ _ fun _ => Or.inl ⟨_, rfl⟩
  have h4 : onlySql ((List.range N).map fun i =>
      Event.exec (.insertParent (some (uuid4Gen i)) (payload i))) :=
    onlySql_map _ _ fun _ => Or.inl ⟨_, rfl⟩
  have hsel : ∀ ids : List String, onlySql (selectBlock ids) := fun ids =>
    onlySql_append (onlySql_map _ _ fun _ => Or.inl ⟨_, rfl⟩) onlySql_commit_single
  refine ⟨?_, ?_, ?_, ?_, ?_, ?_, ?_, ?_, ?_, ?_, ?_, ?_, ⟨rfl, rfl, rfl, rfl, rfl, rfl⟩⟩
  · have heq : test_serial_pk_insert_trace N payload =
        [Event.connect, Event.openCursor]
          ++ (createTablesEvents .serial ++ test_serial_pk_insert_block N payload)
          ++ [Event.closeCursor, Event.closeConn] := by
      simp [test_serial_pk_insert_trace, List.append_assoc]
    rw [heq]
    exact scenarioResourceSpec_mk _ (onlySql_append (onlySql_createTables _)
      (onlySql_append hser onlySql_commit_single))
  · have heq : test_bytea_ulid_pk_insert_trace N ulidGen payload =
        [Event.connect, Event.openCursor]
          ++ (createTablesEvents .byteaUlid ++ test_bytea_ulid_pk_insert_block N ulidGen payload)
          ++ [Event.closeCursor, Event.closeConn] := by
      simp [test_bytea_ulid_pk_insert_trace, List.append_assoc]
    rw [heq]
    exact scenarioResourceSpec_mk _ (onlySql_append (onlySql_createTables _)
      (onlySql_append hulid onlySql_commit_single))
  · have heq : test_uuid_uuidv7_pk_insert_trace N uuid7Gen payload =
        [Event.connect, Event.openCursor]
          ++ (createTablesEvents .uuidv7 ++ test_uuid_uuidv7_pk_insert_block N uuid7Gen payload
            ++ [Event.exec .selectParentLimit10])
          ++ [Event.closeCursor, Event.closeConn] := by
      simp [test_uuid_uuidv7_pk_insert_trace, List.append_assoc]
    rw [heq]
    exact scenarioResourceSpec_mk _ (onlySql_append (onlySql_append (onlySql_createTables _)
      (onlySql_append h7 onlySql_commit_single)) (onlySql_single_exec _))
  · have heq : test_uuid_uuidv4_pk_insert_trace N uuid4Gen payload =
        [Event.connect, Event.openCursor]
          ++ (createTablesEvents .uuidv4 ++ test_uuid_uuidv4_pk_insert_block N uuid4Gen payload
            ++ [Event.exec .selectParentLimit10])
          ++ [Event.closeCursor, Event.closeConn] := by
      simp [test_uuid_uuidv4_pk_insert_trace, List.append_assoc]
    rw [heq]
    exact scenarioResourceSpec_mk _ (onlySql_append (onlySql_append (onlySql_createTables _)
      (onlySql_append h4 onlySql_commit_single)) (onlySql_single_exec _))
  · have heq : test_serial_pk_select_trace N payload serialIds =
        [Event.connect, Event.openCursor]
          ++ (createTablesEvents .serial ++ test_serial_pk_select_prefill N payload
            ++ selectBlock serialIds)
          ++ [Event.closeCursor, Event.closeConn] := by
      simp [test_serial_pk_select_trace, List.append_assoc]
    rw [heq]
    exact scenarioResourceSpec_mk _ (onlySql_append (onlySql_append (onlySql_createTables _)
      (onlySql_append hser onlySql_commit_single)) (hsel serialIds))
  · have heq : test_bytea_ulid_pk_select_trace N ulidGen payload ulidIds =
        [Event.connect, Event.openCursor]
          ++ (createTablesEvents .byteaUlid ++ gen_pk_select_prefill N ulidGen payload
            ++ selectBlock ulidIds)
          ++ [Event.closeCursor, Event.closeConn] := by
      simp [test_bytea_ulid_pk_select_trace, List.append_assoc]
    rw [heq]
    exact scenarioResourceSpec_mk _ (onlySql_append (onlySql_append (onlySql_createTables _)
      (onlySql_append hulid onlySql_commit_single)) (hsel ulidIds))
  · have heq : test_uuid_uuidv7_pk_select_trace N uuid7Gen payload uuid7Ids =
        [Event.connect, Event.openCursor]
          ++ (createTablesEvents .uuidv7 ++ gen_pk_select_prefill N uuid7Gen payload
            ++ selectBlock uuid7Ids)
          ++ [Event.closeCursor, Event.closeConn] := by
      simp [test_uuid_uuidv7_pk_select_trace, List.append_assoc]
    rw [heq]
    exact scenarioResourceSpec_mk _ (onlySql_append (onlySql_append (onlySql_createTables _)
      (onlySql_append h7 onlySql_commit_single)) (hsel uuid7Ids))
  · have heq : test_uuid_uuidv4_pk_select_trace N uuid4Gen payload uuid4Ids =
        [Event.connect, Event.openCursor]
          ++ (createTablesEvents .uuidv4 ++ gen_pk_select_prefill N uuid4Gen payload
            ++ selectBlock uuid4Ids)
          ++ [Event.closeCursor, Event.closeConn] := by
      simp [test_uuid_uuidv4_pk_select_trace, List.append_assoc]
    rw [heq]
    exact scenarioResourceSpec_mk _ (onlySql_append (onlySql_append (onlySql_createTables _)
      (onlySql_append h4 onlySql_commit_single)) (hsel uuid4Ids))
  · have heq : test_serial_pk_parent_child_insert_trace N payload =
        [Event.connect, Event.openCursor]
          ++ (createTablesEvents .serial ++ test_serial_pk_parent_child_insert_block N payload)
          ++ [Event.closeCursor, Event.closeConn] := by
      simp [test_serial_pk_parent_child_insert_trace, List.append_assoc]
    rw [heq]
    exact scenarioResourceSpec_mk _ (onlySql_append (onlySql_createTables _)
      (onlySql_append (onlySql_relLoop (fun i => onlySql_pair_step _ _) N)
        onlySql_commit_single))
  · have heq : test_bytea_ulid_pk_parent_child_insert_trace N ulidGen payload =
        [Event.connect, Event.openCursor]
          ++ (createTablesEvents .byteaUlid
            ++ test_bytea_ulid_pk_parent_child_insert_block N ulidGen payload)
          ++ [Event.closeCursor, Event.closeConn] := by
      simp [test_bytea_ulid_pk_parent_child_insert_trace, List.append_assoc]
    rw [heq]
    exact scenarioResourceSpec_mk _ (onlySql_append (onlySql_createTables _)
      (onlySql_append (onlySql_relLoop (fun i => onlySql_pair_step _ _) N)
        onlySql_commit_single))
  · have heq : test_uuidv7_pk_parent_child_insert_trace N uuid7Gen payload =
        [Event.connect, Event.openCursor]
          ++ (createTablesEvents .uuidv7
            ++ test_uuidv7_pk_parent_child_insert_block N uuid7Gen payload)
          ++ [Event.closeCursor, Event.closeConn] := by
      simp [test_uuidv7_pk_parent_child_insert_trace, List.append_assoc]
    rw [heq]
    exact scenarioResourceSpec_mk _ (onlySql_append (onlySql_createTables _)
      (onlySql_append (onlySql_relLoop (fun i => onlySql_pair_step _ _) N)
        onlySql_commit_single))
  · have heq : test_uuidv4_pk_parent_child_insert_trace N uuid4Gen payload =
        [Event.connect, Event.openCursor]
          ++ (createTablesEvents .uuidv4
            ++ test_uuidv4_pk_parent_child_insert_block N uuid4Gen payload)
          ++ [Event.closeCursor, Event.closeConn] := by
      simp [test_uuidv4_pk_parent_child_insert_trace, List.append_assoc]
    rw [heq]
    exact scenarioResourceSpec_mk _ (onlySql_append (onlySql_createTables _)
      (onlySql_append (onlySql_relLoop (fun i => onlySql_pair_step _ _) N)
        onlySql_commit_single))

/-- Claim C3 fails on the code: with the configuration `INSERT_COUNT=5`,
`SELECT_COUNT=10`, the select scenario's pre-fill performs 5 offers into a
capacity-10 sampler, which therefore holds 5 identifiers; the timed block
then issues one point lookup per held identifier — 5 lookups, not the
configured `SELECT_COUNT = 10` — and the scenario's own
`assert len(select) == SELECT_COUNT` fails. -/
theorem claim_C3_select_count_mismatch :
    INSERT_COUNT (some "5") = some 5 ∧
    SELECT_COUNT (some "10") = some 10 ∧
    SlidingSample.offerAll (⟨10, []⟩ : SlidingSample String)
      [("1", 0, 0), ("2", 0, 0), ("3", 0, 0), ("4", 0, 0), ("5", 0, 0)] =
      some ⟨10, ["1", "2", "3", "4", "5"]⟩ ∧
    (selectBlock ["1", "2", "3", "4", "5"]).countP isSelectById = 5 ∧
    (selectBlock ["1", "2", "3", "4", "5"]).countP isSelectById ≠ 10 := by
  refine ⟨by decide, by decide, ?_, rfl, by decide⟩
  norm_num [SlidingSample.offerAll, SlidingSample.append]
